import Mathlib

/-!
Verification of the scoring engine of `src/streamlit_app.py` (risk capacity /
risk requirement calculator).

The scoring core is pure arithmetic over Python floats; it is embedded
shallowly over `ℚ` (all operations the engine performs on the relevant inputs
are exact divisions, additions, multiplications, `min`/`max` and comparisons,
so the rational semantics agrees with the float semantics at every concrete
input analysed below).  Python's `round(x, 1)` (banker's rounding to one
decimal place) is modelled exactly by `round1` below.  Python dicts keyed by
strings are modelled as association lists with first-match lookup
(`List.lookup`); a Python `KeyError` raised during aggregation is modelled by
the `Except` monad with the `DictError.keyError` error value.
-/

/-- Round half to even at integer granularity: the rounding mode of Python's
built-in `round`.  `⌊q⌋` when the fractional part is below `1/2`, `⌊q⌋ + 1`
when above, and the even neighbour on an exact tie. -/
def round_half_even (q : ℚ) : ℤ :=
  if q - ⌊q⌋ < 1/2 then ⌊q⌋
  else if 1/2 < q - ⌊q⌋ then ⌊q⌋ + 1
  else if ⌊q⌋ % 2 = 0 then ⌊q⌋ else ⌊q⌋ + 1

/-- Python's `round(x, 1)`: round to one decimal place, ties to even. -/
def round1 (q : ℚ) : ℚ := (round_half_even (q * 10) : ℚ) / 10

/- ----------------------------------------------------------------
Capacity sub-score mapping functions, from `src/streamlit_app.py`.
Each linear bracket of `map_sli` / `map_income_ratio` /
`map_emergency_months` is named separately so that boundary-continuity
properties can compare adjacent bracket formulas at a shared edge; the
mapping functions are assembled from the brackets exactly as the source's
early-return `if` chains dictate.
---------------------------------------------------------------- -/

/-- Bracket `1 < sli ≤ 5` of `map_sli` (line 87): `1.0 + (sli - 1.0) / (5.0 - 1.0) * (40.0 - 1.0)`. -/
def sli_bracket_1_5 (sli : ℚ) : ℚ := 1 + (sli - 1) / (5 - 1) * (40 - 1)

/-- Bracket `5 < sli ≤ 20` of `map_sli` (line 89). -/
def sli_bracket_5_20 (sli : ℚ) : ℚ := 40 + (sli - 5) / (20 - 5) * (80 - 40)

/-- Bracket `20 < sli ≤ 50` of `map_sli` (line 91). -/
def sli_bracket_20_50 (sli : ℚ) : ℚ := 80 + (sli - 20) / (50 - 20) * (95 - 80)

/-- Bracket `sli > 50` of `map_sli` (lines 93-94): input capped at 200, result capped at 100. -/
def sli_bracket_over_50 (sli : ℚ) : ℚ :=
  min (95 + (min sli 200 - 50) / (200 - 50) * (100 - 95)) 100

/-- Embeds `map_sli` (lines 62-95).  The source is a chain of early returns
whose lower bracket bounds are implied by the preceding tests; the trailing
`return 0.0` (line 95) is kept as the final `else` (it is unreachable, since
`¬ sli ≤ 50` forces `50 < sli`). -/
def map_sli (sli : ℚ) : ℚ :=
  if sli ≤ 1 then 0
  else if sli ≤ 5 then sli_bracket_1_5 sli
  else if sli ≤ 20 then sli_bracket_5_20 sli
  else if sli ≤ 50 then sli_bracket_20_50 sli
  else if 50 < sli then sli_bracket_over_50 sli
  else 0

/-- Bracket `1 < r ≤ 1.5` of `map_income_ratio` (line 122). -/
def income_bracket_1_15 (r : ℚ) : ℚ := 10 + (r - 1) / (3/2 - 1) * (40 - 10)

/-- Bracket `1.5 < r ≤ 2.5` of `map_income_ratio` (line 124). -/
def income_bracket_15_25 (r : ℚ) : ℚ := 40 + (r - 3/2) / (5/2 - 3/2) * (75 - 40)

/-- Bracket `r > 2.5` of `map_income_ratio` (lines 126-127): input capped at 10, result capped at 100. -/
def income_bracket_over_25 (r : ℚ) : ℚ :=
  min (75 + (min r 10 - 5/2) / (10 - 5/2) * (100 - 75)) 100

/-- Embeds `map_income_ratio` (lines 97-127); decimal literals `1.5`, `2.5`
appear as `3/2`, `5/2`. -/
def map_income_r (r : ℚ) : ℚ :=
  if r ≤ 1 then 10
  else if r ≤ 3/2 then income_bracket_1_15 r
  else if r ≤ 5/2 then income_bracket_15_25 r
  else income_bracket_over_25 r

/-- Bracket `1 < months ≤ 3` of `map_emergency_months` (line 154). -/
def em_bracket_1_3 (months : ℚ) : ℚ := 20 + (months - 1) / (3 - 1) * (40 - 20)

/-- Bracket `3 < months ≤ 6` of `map_emergency_months` (line 156). -/
def em_bracket_3_6 (months : ℚ) : ℚ := 40 + (months - 3) / (6 - 3) * (70 - 40)

/-- Bracket `months > 6` of `map_emergency_months` (lines 158-159): input capped at 24, result capped at 100. -/
def em_bracket_over_6 (months : ℚ) : ℚ :=
  min (70 + (min months 24 - 6) / (24 - 6) * (100 - 70)) 100

/-- Embeds `map_emergency_months` (lines 129-159). -/
def map_emergency_months (months : ℚ) : ℚ :=
  if months ≤ 1 then 5
  else if months ≤ 3 then em_bracket_1_3 months
  else if months ≤ 6 then em_bracket_3_6 months
  else em_bracket_over_6 months

/-- Embeds `map_industry` (lines 161-182): dict lookup
`{"Stable": 90.0, "Moderate": 60.0, "Unstable": 25.0}` with default 60. -/
def map_industry (s : String) : ℚ :=
  if s = "Stable" then 90
  else if s = "Moderate" then 60
  else if s = "Unstable" then 25
  else 60

/-- Embeds `map_age` (lines 184-212). -/
def map_age (age : ℤ) : ℚ :=
  if age ≤ 30 then 90
  else if 31 ≤ age ∧ age ≤ 40 then 75
  else if 41 ≤ age ∧ age ≤ 55 then 50
  else if 56 ≤ age ∧ age ≤ 65 then 30
  else 10

/-- Embeds `map_growth` (lines 214-239). -/
def map_growth (g : ℚ) : ℚ :=
  if g < 0 then 10
  else if g < 2 then 30
  else if g < 5 then 60
  else 85

/-- Embeds `map_dependents` (lines 241-269). -/
def map_dependents (d : ℤ) : ℚ :=
  if d = 0 then 90
  else if d = 1 then 70
  else if d = 2 then 50
  else if d = 3 then 30
  else 15

/-- Embeds the module-level capacity weight dict `WEIGHTS` (lines 277-305),
as an association list in Python dict insertion order. -/
def WEIGHTS : List (String × ℚ) :=
  [("SLI", 25), ("Income", 20), ("Expenses", 15), ("Industry", 12),
   ("Age", 12), ("Growth", 8), ("Dependents", 8)]

/-- Error values observable from the aggregation step.  The source's
`compute_risk_capacity` indexes `subscores[k]`, so Python raises `KeyError k`
at the first weight-table key missing from `subscores`; that is
`DictError.keyError`.  The spec instead canonicalizes on an explicit
`MissingFactor` validation error, modelled by the distinct constructor
`DictError.missingFactor` so the two behaviours can be told apart; the source
never produces `missingFactor`. -/
inductive DictError where
  | keyError (key : String) : DictError
  | missingFactor (key : String) : DictError
  deriving DecidableEq

/-- Embeds `compute_risk_capacity` (lines 307-340):
`total = sum(WEIGHTS[k] * float(subscores[k]) for k in WEIGHTS.keys())`
(iterating the weight keys in insertion order and raising `KeyError` at the
first missing key — here: erroring at the first failed lookup), then
`round(max(0.0, min(100.0, total / 100.0)), 1)`.  The seven weight
coefficients are the `WEIGHTS` values in insertion order. -/
def compute_risk_capacity (subscores : List (String × ℚ)) : Except DictError ℚ :=
  match List.lookup "SLI" subscores with
  | none => Except.error (DictError.keyError "SLI")
  | some s_sli =>
  match List.lookup "Income" subscores with
  | none => Except.error (DictError.keyError "Income")
  | some s_income =>
  match List.lookup "Expenses" subscores with
  | none => Except.error (DictError.keyError "Expenses")
  | some s_expenses =>
  match List.lookup "Industry" subscores with
  | none => Except.error (DictError.keyError "Industry")
  | some s_industry =>
  match List.lookup "Age" subscores with
  | none => Except.error (DictError.keyError "Age")
  | some s_age =>
  match List.lookup "Growth" subscores with
  | none => Except.error (DictError.keyError "Growth")
  | some s_growth =>
  match List.lookup "Dependents" subscores with
  | none => Except.error (DictError.keyError "Dependents")
  | some s_dependents =>
    let total : ℚ := 25 * s_sli + 20 * s_income + 15 * s_expenses
      + 12 * s_industry + 12 * s_age + 8 * s_growth + 8 * s_dependents
    let score := total / 100
    Except.ok (round1 (max 0 (min 100 score)))

/-- Spec-side aggregation sum `Σ weight[k] * subscore[k]` over a weight
table, reading each factor from the sub-score dict (`0` default is never
reached when every key is present). -/
def weighted_total (weights subscores : List (String × ℚ)) : ℚ :=
  (weights.map fun kw => kw.2 * ((List.lookup kw.1 subscores).getD 0)).sum

/-- Inline RRR step table of `compute_risk_requirement` (lines 375-383),
applied to `rrr_pct = rrr * 100`. -/
def req_rrr_step (rrr_pct : ℚ) : ℚ :=
  if rrr_pct ≤ 2 then 10
  else if rrr_pct ≤ 5 then 35
  else if rrr_pct ≤ 10 then 65
  else 90

/-- Inline real-requirement step table of `compute_risk_requirement` (lines 385-393). -/
def req_realreq_step (real_req_pct : ℚ) : ℚ :=
  if real_req_pct ≤ 0 then 10
  else if real_req_pct ≤ 2 then 40
  else if real_req_pct ≤ 5 then 70
  else 90

/-- Inline shortfall step table of `compute_risk_requirement` (lines 395-403). -/
def req_shortfall_step (shortfall_pct : ℚ) : ℚ :=
  if shortfall_pct ≤ 0 then 10
  else if shortfall_pct ≤ 2 then 30
  else if shortfall_pct ≤ 5 then 60
  else 90

/-- Inline drawdown-pressure step table of `compute_risk_requirement` (lines 405-413); `0.5` appears as `1/2`. -/
def req_draw_step (dr : ℚ) : ℚ :=
  if dr ≤ 1/2 then 10
  else if dr ≤ 1 then 40
  else if dr ≤ 2 then 70
  else 90

/-- The weight dict defined inline in `compute_risk_requirement` (line 416):
`{"RRR": 35.0, "RealReq": 25.0, "Shortfall": 25.0, "DrawPressure": 15.0}`
(this local table shadows the module-level `REQ_WEIGHTS`). -/
def REQ_WEIGHTS_inline : List (String × ℚ) :=
  [("RRR", 35), ("RealReq", 25), ("Shortfall", 25), ("DrawPressure", 15)]

/-- Embeds `compute_risk_requirement` (lines 342-420): the four inline step
tables, the inline weight dict, `total = sum(REQ_WEIGHTS[k] * subs[k] for k
in REQ_WEIGHTS)`, and `round(max(0.0, min(100.0, total / 100.0)), 1)`;
returns the pair `(req_score, subs)` as in the source. -/
def compute_risk_requirement (rrr real_req_pct shortfall_pct draw_ratio_in : ℚ) :
    ℚ × List (String × ℚ) :=
  let rrr_s := req_rrr_step (rrr * 100)
  let real_s := req_realreq_step real_req_pct
  let short_s := req_shortfall_step shortfall_pct
  let draw_s := req_draw_step draw_ratio_in
  let subs : List (String × ℚ) :=
    [("RRR", rrr_s), ("RealReq", real_s), ("Shortfall", short_s), ("DrawPressure", draw_s)]
  let total := weighted_total REQ_WEIGHTS_inline subs
  (round1 (max 0 (min 100 (total / 100))), subs)

/-- Embeds `map_rrr` (lines 427-462), the fine-grained piecewise-linear RRR
table.  `compute_risk_requirement` never calls it. -/
def map_rrr (rrr : ℚ) : ℚ :=
  let p := rrr * 100
  if p ≤ 3 then 0
  else if p ≤ 6 then (p - 3) / (6 - 3) * 25
  else if p ≤ 10 then 25 + (p - 6) / (10 - 6) * 35
  else if p ≤ 15 then 60 + (p - 10) / (15 - 10) * 25
  else 85 + min (p - 15) 15 / 15 * 15

/-- Embeds `map_realreq` (lines 464-494); never called by `compute_risk_requirement`. -/
def map_realreq (real_pct : ℚ) : ℚ :=
  if real_pct ≤ 0 then 0
  else if real_pct ≤ 2 then real_pct / 2 * 25
  else if real_pct ≤ 5 then 25 + (real_pct - 2) / (5 - 2) * 40
  else 65 + min (real_pct - 5) 10 / 10 * 35

/-- Embeds `map_shortfall` (lines 496-522); never called by `compute_risk_requirement`. -/
def map_shortfall (short_pct : ℚ) : ℚ :=
  if short_pct ≤ 0 then 0 else min 100 (short_pct / 10 * 100)

/-- Embeds `map_drawimpact` (lines 524-555); `0.5`/`1.5` appear as `1/2`/`3/2`;
never called by `compute_risk_requirement`. -/
def map_drawimpact (dr : ℚ) : ℚ :=
  if dr ≤ 1/2 then 0
  else if dr ≤ 1 then 25
  else if dr ≤ 3/2 then 60
  else 100

/-- Embeds the module-level requirement weight dict `REQ_WEIGHTS`
(lines 564-584); never consulted by `compute_risk_requirement`, which builds
its own inline table. -/
def REQ_WEIGHTS : List (String × ℚ) :=
  [("RRR", 40), ("RealReq", 25), ("Shortfall", 20), ("DrawImpact", 15)]

/- ----------------------------------------------------------------
Derived-metric computation and sub-score assembly, from the `submitted`
block of `main` (lines 1008-1053).
---------------------------------------------------------------- -/

/-- Embeds `sli_value = investable_assets / max(1.0, annual_withdrawals)` (line 1017). -/
def sli_value (investable_assets annual_withdrawals : ℚ) : ℚ :=
  investable_assets / max 1 annual_withdrawals

/-- Embeds `income_ratio = annual_income / max(1.0, annual_fixed + annual_variable)` (line 1022). -/
def income_ratio_metric (annual_income annual_fixed annual_variable : ℚ) : ℚ :=
  annual_income / max 1 (annual_fixed + annual_variable)

/-- Embeds `monthly_expenses = (annual_fixed + annual_variable) / 12.0` (line 1012). -/
def monthly_expenses (annual_fixed annual_variable : ℚ) : ℚ :=
  (annual_fixed + annual_variable) / 12

/-- Embeds `months = investable_assets / max(1.0, monthly_expenses)` (line 1026). -/
def emergency_months (investable_assets annual_fixed annual_variable : ℚ) : ℚ :=
  investable_assets / max 1 (monthly_expenses annual_fixed annual_variable)

/-- Embeds the `subscores` dict built in `main` (lines 1029-1050): the seven
capacity factors keyed exactly by the `WEIGHTS` keys. -/
def capacity_subscores (age dependents : ℤ) (annual_income annual_fixed annual_variable : ℚ)
    (industry : String) (expected_growth investable_assets annual_withdrawals : ℚ) :
    List (String × ℚ) :=
  [("SLI", map_sli (sli_value investable_assets annual_withdrawals)),
   ("Income", map_income_r (income_ratio_metric annual_income annual_fixed annual_variable)),
   ("Expenses", map_emergency_months (emergency_months investable_assets annual_fixed annual_variable)),
   ("Industry", map_industry industry),
   ("Age", map_age age),
   ("Growth", map_growth expected_growth),
   ("Dependents", map_dependents dependents)]

/-- Alignment band of the classifier in `main` (lines 1152-1161). -/
inductive AlignBand where
  | exceeds : AlignBand
  | matches : AlignBand
  | below : AlignBand
  deriving DecidableEq

/-- Embeds the alignment classifier of `main` (lines 1152-1161):
`diff = round(capacity_score - requirement_score, 1)`, then
`diff >= 10` / `-10 <= diff < 10` / `else`; the reported magnitude is `diff`
for the first two bands and `-diff` (the deficit) for the last. -/
def classify_alignment (capacity_score requirement_score : ℚ) : AlignBand × ℚ :=
  let diff := round1 (capacity_score - requirement_score)
  if 10 ≤ diff then (AlignBand.exceeds, diff)
  else if -10 ≤ diff ∧ diff < 10 then (AlignBand.matches, diff)
  else (AlignBand.below, -diff)

/-- Modelled from the spec (§4.4): the three-band partition written the
spec's way — `diff ≥ 10` exceeds with surplus `diff`; `diff < −10` below
with deficit `−diff`; otherwise (`−10 ≤ diff < 10`) roughly matches with
`diff` as-is.  Used to compare the source classifier against the spec. -/
def alignment_bands_spec (capacity_score requirement_score : ℚ) : AlignBand × ℚ :=
  let diff := round1 (capacity_score - requirement_score)
  if 10 ≤ diff then (AlignBand.exceeds, diff)
  else if diff < -10 then (AlignBand.below, -diff)
  else (AlignBand.matches, diff)

/- ----------------------------------------------------------------
Helper lemmas about the rounding model.
---------------------------------------------------------------- -/

lemma floor_le_round_half_even (q : ℚ) : ⌊q⌋ ≤ round_half_even q := by
  unfold round_half_even
  split_ifs <;> omega

lemma round_half_even_le_floor_add_one (q : ℚ) : round_half_even q ≤ ⌊q⌋ + 1 := by
  unfold round_half_even
  split_ifs <;> omega

lemma round_half_even_intCast (n : ℤ) : round_half_even (n : ℚ) = n := by
  unfold round_half_even
  rw [Int.floor_intCast]
  norm_num

lemma le_round_half_even {n : ℤ} {q : ℚ} (h : (n : ℚ) ≤ q) : n ≤ round_half_even q :=
  le_trans (Int.le_floor.mpr h) (floor_le_round_half_even q)

lemma round_half_even_le {n : ℤ} {q : ℚ} (h : q ≤ (n : ℚ)) : round_half_even q ≤ n := by
  have hf : ⌊q⌋ ≤ n := (Int.floor_le_floor h).trans (le_of_eq (Int.floor_intCast n))
  rcases eq_or_lt_of_le hf with heq | hlt
  · have hq : q = (n : ℚ) := le_antisymm h (by rw [← heq]; exact Int.floor_le q)
    rw [hq, round_half_even_intCast]
  · exact (round_half_even_le_floor_add_one q).trans (by omega)

lemma le_round1 {n : ℤ} {q : ℚ} (h : (n : ℚ) ≤ q) : (n : ℚ) ≤ round1 q := by
  unfold round1
  have h10 : ((10 * n : ℤ) : ℚ) ≤ q * 10 := by push_cast; linarith
  have hrh : (10 * n : ℤ) ≤ round_half_even (q * 10) := le_round_half_even h10
  have hc : ((10 * n : ℤ) : ℚ) ≤ (round_half_even (q * 10) : ℚ) := by exact_mod_cast hrh
  push_cast at hc
  linarith

lemma round1_le {n : ℤ} {q : ℚ} (h : q ≤ (n : ℚ)) : round1 q ≤ (n : ℚ) := by
  unfold round1
  have h10 : q * 10 ≤ ((10 * n : ℤ) : ℚ) := by push_cast; linarith
  have hrh : round_half_even (q * 10) ≤ (10 * n : ℤ) := round_half_even_le h10
  have hc : (round_half_even (q * 10) : ℚ) ≤ ((10 * n : ℤ) : ℚ) := by exact_mod_cast hrh
  push_cast at hc
  linarith

lemma round1_intCast (n : ℤ) : round1 (n : ℚ) = (n : ℚ) := by
  unfold round1
  rw [show ((n : ℚ) * 10) = ((n * 10 : ℤ) : ℚ) by push_cast; ring, round_half_even_intCast]
  push_cast
  ring

lemma round1_clamp_comm (q : ℚ) : round1 (max 0 (min 100 q)) = max 0 (min 100 (round1 q)) := by
  rcases le_or_lt q 0 with h0 | h0
  · rw [min_eq_right (by linarith : q ≤ (100:ℚ)), max_eq_left h0]
    have l0 : round1 (0 : ℚ) = 0 := by simpa using round1_intCast 0
    have hr : round1 q ≤ (0 : ℚ) := by simpa using round1_le (n := 0) (by exact_mod_cast h0)
    rw [l0, min_eq_right (hr.trans (by norm_num)), max_eq_left hr]
  · rcases le_or_lt q 100 with h100 | h100
    · rw [min_eq_right h100, max_eq_right h0.le]
      have hr0 : (0 : ℚ) ≤ round1 q := by simpa using le_round1 (n := 0) (by exact_mod_cast h0.le)
      have hr100 : round1 q ≤ (100 : ℚ) := by
        simpa using round1_le (n := 100) (by exact_mod_cast h100)
      rw [min_eq_right hr100, max_eq_right hr0]
    · rw [min_eq_left h100.le, max_eq_right (by norm_num : (0:ℚ) ≤ 100)]
      have l100 : round1 (100 : ℚ) = 100 := by
        have := round1_intCast 100
        norm_num at this
        simpa using this
      have hr : (100 : ℚ) ≤ round1 q := by
        simpa using le_round1 (n := 100) (by exact_mod_cast h100.le)
      rw [l100, min_eq_left hr, max_eq_right (by linarith)]

lemma round1_clamp_bounds (t : ℚ) :
    0 ≤ round1 (max 0 (min 100 t)) ∧ round1 (max 0 (min 100 t)) ≤ 100 := by
  have h1 : (0 : ℚ) ≤ max 0 (min 100 t) := le_max_left _ _
  have h2 : max 0 (min 100 t) ≤ 100 := max_le (by norm_num) (min_le_left _ _)
  constructor
  · simpa using le_round1 (n := 0) (by exact_mod_cast h1)
  · simpa using round1_le (n := 100) (by exact_mod_cast h2)

/- ----------------------------------------------------------------
Helper lemmas about the aggregation functions.
---------------------------------------------------------------- -/

lemma weighted_total_req (a b c d : ℚ) :
    weighted_total REQ_WEIGHTS_inline
      [("RRR", a), ("RealReq", b), ("Shortfall", c), ("DrawPressure", d)] =
      35 * a + 25 * b + 25 * c + 15 * d := by
  show 35 * a + (25 * b + (25 * c + (15 * d + 0))) = _
  ring

lemma req_score_form (r a s d : ℚ) :
    (compute_risk_requirement r a s d).1 =
      round1 (max 0 (min 100 ((35 * req_rrr_step (r * 100) + 25 * req_realreq_step a
        + 25 * req_shortfall_step s + 15 * req_draw_step d) / 100))) := by
  simp only [compute_risk_requirement]
  rw [weighted_total_req]

lemma req_subs_form (r a s d : ℚ) :
    (compute_risk_requirement r a s d).2 =
      [("RRR", req_rrr_step (r * 100)), ("RealReq", req_realreq_step a),
       ("Shortfall", req_shortfall_step s), ("DrawPressure", req_draw_step d)] := by
  simp only [compute_risk_requirement]

lemma req_rrr_step_bounds (p : ℚ) : 10 ≤ req_rrr_step p ∧ req_rrr_step p ≤ 90 := by
  unfold req_rrr_step
  split_ifs <;> norm_num

lemma req_realreq_step_bounds (p : ℚ) : 10 ≤ req_realreq_step p ∧ req_realreq_step p ≤ 90 := by
  unfold req_realreq_step
  split_ifs <;> norm_num

lemma req_shortfall_step_bounds (p : ℚ) : 10 ≤ req_shortfall_step p ∧ req_shortfall_step p ≤ 90 := by
  unfold req_shortfall_step
  split_ifs <;> norm_num

lemma req_draw_step_bounds (p : ℚ) : 10 ≤ req_draw_step p ∧ req_draw_step p ≤ 90 := by
  unfold req_draw_step
  split_ifs <;> norm_num

/- ----------------------------------------------------------------
Concrete evaluations shared by several results below.
---------------------------------------------------------------- -/

lemma map_industry_moderate : map_industry "Moderate" = 60 := by decide

lemma eval_subscores_scenario :
    capacity_subscores 39 2 500000 30000 30000 "Moderate" 2 500000 10000 =
      [("SLI", 95), ("Income", 850/9), ("Expenses", 100), ("Industry", 60),
       ("Age", 75), ("Growth", 60), ("Dependents", 50)] := by
  norm_num [capacity_subscores, sli_value, income_ratio_metric, monthly_expenses,
    emergency_months, map_sli, map_income_r, map_emergency_months, map_industry_moderate,
    map_age, map_growth, map_dependents, sli_bracket_20_50, income_bracket_over_25,
    em_bracket_over_6, max_def, min_def]

lemma round1_eval_scenario : round1 (2975/36) = 413/5 := by
  unfold round1 round_half_even
  rw [show ((2975:ℚ)/36) * 10 = 14875/18 by norm_num]
  rw [show ⌊(14875/18 : ℚ)⌋ = 826 by norm_num [Int.floor_eq_iff]]
  norm_num

lemma eval_capacity_scenario :
    compute_risk_capacity (capacity_subscores 39 2 500000 30000 30000 "Moderate" 2 500000 10000) =
      Except.ok (413/5) := by
  rw [eval_subscores_scenario]
  show Except.ok (round1 (max 0 (min 100 ((25 * 95 + 20 * (850/9) + 15 * 100
    + 12 * 60 + 12 * 75 + 8 * 60 + 8 * 50) / 100)))) = _
  rw [show ((25 * 95 + 20 * ((850:ℚ)/9) + 15 * 100 + 12 * 60 + 12 * 75 + 8 * 60 + 8 * 50) / 100)
      = 2975/36 by norm_num]
  rw [show min (100:ℚ) (2975/36) = 2975/36 by rw [min_def]; norm_num]
  rw [show max (0:ℚ) (2975/36) = 2975/36 by rw [max_def]; norm_num]
  rw [round1_eval_scenario]

/- ----------------------------------------------------------------
Results.
---------------------------------------------------------------- -/

/-- C1 (counterexample): at the concrete capacity scenario (age 39, two
dependents, income 500000, fixed 30000, variable 30000, industry Moderate,
growth 2.0, assets 500000, withdrawals 10000) the pipeline's final weighted
capacity score is 413/5 = 82.6, not the 80.1 the claim states, and the age
sub-score is 75, not 50. -/
theorem capacity_scenario_not_claimed :
    compute_risk_capacity (capacity_subscores 39 2 500000 30000 30000 "Moderate" 2 500000 10000) =
      Except.ok (413/5)
    ∧ (413/5 : ℚ) ≠ 801/10
    ∧ map_age 39 = 75
    ∧ (75 : ℚ) ≠ 50 := by
  refine ⟨eval_capacity_scenario, by norm_num, ?_, by norm_num⟩
  norm_num [map_age]

/-- C1 (amended): for the concrete capacity scenario (age 39, dependents 2,
annual income 500000, fixed 30000, variable 30000, industry "Moderate",
growth 2.0, assets 500000, withdrawals 10000) the pipeline produces
sub-scores SLI = 95, Income = 850/9 (≈ 94.4), Expenses = 100, Industry = 60,
Age = 75, Growth = 60, Dependents = 50, and the final weighted capacity score
is 82.6. -/
theorem capacity_scenario_actual :
    map_sli (sli_value 500000 10000) = 95
    ∧ map_income_r (income_ratio_metric 500000 30000 30000) = 850/9
    ∧ map_emergency_months (emergency_months 500000 30000 30000) = 100
    ∧ map_industry "Moderate" = 60
    ∧ map_age 39 = 75
    ∧ map_growth 2 = 60
    ∧ map_dependents 2 = 50
    ∧ compute_risk_capacity
        (capacity_subscores 39 2 500000 30000 30000 "Moderate" 2 500000 10000) =
        Except.ok (413/5) := by
  have h := eval_subscores_scenario
  simp only [capacity_subscores, List.cons.injEq, Prod.mk.injEq, and_true, true_and] at h
  exact ⟨h.1, h.2.1, h.2.2.1, map_industry_moderate, h.2.2.2.2.1, h.2.2.2.2.2.1,
    h.2.2.2.2.2.2, eval_capacity_scenario⟩

/-- C2 (counterexample): the bracket continuity claimed at every listed edge
fails at the edge 1 for both SLI and emergency months: `map_sli` returns 0 at
1 while the adjacent `(1,5]` bracket formula evaluates to 1 there, and
`map_emergency_months` returns 5 at 1 while the adjacent `(1,3]` bracket
formula evaluates to 20 there. -/
theorem bracket_edges_jump_at_one :
    map_sli 1 = 0 ∧ sli_bracket_1_5 1 = 1 ∧ (0 : ℚ) ≠ 1
    ∧ map_emergency_months 1 = 5 ∧ em_bracket_1_3 1 = 20 ∧ (5 : ℚ) ≠ 20 := by
  refine ⟨?_, ?_, by norm_num, ?_, ?_, by norm_num⟩ <;>
    norm_num [map_sli, sli_bracket_1_5, map_emergency_months, em_bracket_1_3]

/-- C2 (amended): adjacent bracket formulas of the capacity mappings agree at
every listed interior edge except the edge 1 of `map_sli` and of
`map_emergency_months` (where the sub-score jumps from 0 to 1, resp. from 5
to 20): they agree at 5, 20, 50 for SLI, at 1, 1.5, 2.5 for the income
ratio, and at 3, 6 for emergency months; e.g. `map_sli 5 = 40` under both
adjacent bracket formulas. -/
theorem bracket_edges_match :
    (sli_bracket_1_5 5 = 40 ∧ sli_bracket_5_20 5 = 40 ∧ map_sli 5 = 40)
    ∧ (sli_bracket_5_20 20 = 80 ∧ sli_bracket_20_50 20 = 80 ∧ map_sli 20 = 80)
    ∧ (sli_bracket_20_50 50 = 95 ∧ sli_bracket_over_50 50 = 95 ∧ map_sli 50 = 95)
    ∧ (map_income_r 1 = 10 ∧ income_bracket_1_15 1 = 10)
    ∧ (income_bracket_1_15 (3/2) = 40 ∧ income_bracket_15_25 (3/2) = 40
        ∧ map_income_r (3/2) = 40)
    ∧ (income_bracket_15_25 (5/2) = 75 ∧ income_bracket_over_25 (5/2) = 75
        ∧ map_income_r (5/2) = 75)
    ∧ (em_bracket_1_3 3 = 40 ∧ em_bracket_3_6 3 = 40 ∧ map_emergency_months 3 = 40)
    ∧ (em_bracket_3_6 6 = 70 ∧ em_bracket_over_6 6 = 70 ∧ map_emergency_months 6 = 70) := by
  refine ⟨⟨?_, ?_, ?_⟩, ⟨?_, ?_, ?_⟩, ⟨?_, ?_, ?_⟩, ⟨?_, ?_⟩, ⟨?_, ?_, ?_⟩,
    ⟨?_, ?_, ?_⟩, ⟨?_, ?_, ?_⟩, ⟨?_, ?_, ?_⟩⟩ <;>
    norm_num [map_sli, map_income_r, map_emergency_months, sli_bracket_1_5,
      sli_bracket_5_20, sli_bracket_20_50, sli_bracket_over_50, income_bracket_1_15,
      income_bracket_15_25, income_bracket_over_25, em_bracket_1_3, em_bracket_3_6,
      em_bracket_over_6, min_def]

/-- C3 (counterexample): with the "SLI" factor absent from the sub-score
dict, the aggregation fails with a plain dict-lookup `KeyError "SLI"`, which
is not the spec's explicit `MissingFactor` validation error. -/
theorem missing_factor_error_is_key_error :
    compute_risk_capacity
      [("Income", 50), ("Expenses", 50), ("Industry", 50), ("Age", 50),
       ("Growth", 50), ("Dependents", 50)] =
      Except.error (DictError.keyError "SLI")
    ∧ DictError.keyError "SLI" ≠ DictError.missingFactor "SLI" := by
  exact ⟨rfl, by decide⟩

/-- C3 (amended): if any key of the capacity weight table has no entry in the
sub-score dict, `compute_risk_capacity` fails fast — it returns the Python
`KeyError` for a missing key (naming a key that is indeed absent) rather
than silently dropping the factor; the failure is a lookup `KeyError`, not
an explicit `MissingFactor` validation error. -/
theorem missing_weight_key_fails_fast :
    ∀ subscores : List (String × ℚ),
      (∃ kw ∈ WEIGHTS, List.lookup kw.1 subscores = none) →
      ∃ k, List.lookup k subscores = none
        ∧ compute_risk_capacity subscores = Except.error (DictError.keyError k) := by
  intro subs hmiss
  rcases hmiss with ⟨kw, hmem, hnone⟩
  cases h1 : List.lookup "SLI" subs with
  | none => exact ⟨"SLI", h1, by simp [compute_risk_capacity, h1]⟩
  | some s1 =>
  cases h2 : List.lookup "Income" subs with
  | none => exact ⟨"Income", h2, by simp [compute_risk_capacity, h1, h2]⟩
  | some s2 =>
  cases h3 : List.lookup "Expenses" subs with
  | none => exact ⟨"Expenses", h3, by simp [compute_risk_capacity, h1, h2, h3]⟩
  | some s3 =>
  cases h4 : List.lookup "Industry" subs with
  | none => exact ⟨"Industry", h4, by simp [compute_risk_capacity, h1, h2, h3, h4]⟩
  | some s4 =>
  cases h5 : List.lookup "Age" subs with
  | none => exact ⟨"Age", h5, by simp [compute_risk_capacity, h1, h2, h3, h4, h5]⟩
  | some s5 =>
  cases h6 : List.lookup "Growth" subs with
  | none => exact ⟨"Growth", h6, by simp [compute_risk_capacity, h1, h2, h3, h4, h5, h6]⟩
  | some s6 =>
  cases h7 : List.lookup "Dependents" subs with
  | none => exact ⟨"Dependents", h7, by simp [compute_risk_capacity, h1, h2, h3, h4, h5, h6, h7]⟩
  | some s7 =>
    exfalso
    simp only [WEIGHTS, List.mem_cons, List.not_mem_nil, or_false] at hmem
    rcases hmem with rfl | rfl | rfl | rfl | rfl | rfl | rfl
    · simp [h1] at hnone
    · simp [h2] at hnone
    · simp [h3] at hnone
    · simp [h4] at hnone
    · simp [h5] at hnone
    · simp [h6] at hnone
    · simp [h7] at hnone

/-- C3 (witness): instantiating the fail-fast result at a concrete dict
missing "SLI". -/
theorem missing_weight_key_fails_fast_witness :
    ∃ k, List.lookup k
        [("Income", (50:ℚ)), ("Expenses", 50), ("Industry", 50), ("Age", 50),
         ("Growth", 50), ("Dependents", 50)] = none
      ∧ compute_risk_capacity
          [("Income", (50:ℚ)), ("Expenses", 50), ("Industry", 50), ("Age", 50),
           ("Growth", 50), ("Dependents", 50)] =
          Except.error (DictError.keyError k) :=
  missing_weight_key_fails_fast _ ⟨("SLI", 25), by decide, rfl⟩

/-- C4: with all seven factors present, `compute_risk_capacity` returns
exactly the spec's round-then-clamp contract
`clamp(0, 100, round(Σ weight[k]·subscore[k] / 100, 1))` (the source clamps
before rounding, but the two compositions agree everywhere), and the
requirement aggregation of `compute_risk_requirement` satisfies the same
contract over its inline weight table and returned sub-scores. -/
theorem aggregation_matches_round_clamp_contract :
    (∀ (subscores : List (String × ℚ)) (s1 s2 s3 s4 s5 s6 s7 : ℚ),
      List.lookup "SLI" subscores = some s1 →
      List.lookup "Income" subscores = some s2 →
      List.lookup "Expenses" subscores = some s3 →
      List.lookup "Industry" subscores = some s4 →
      List.lookup "Age" subscores = some s5 →
      List.lookup "Growth" subscores = some s6 →
      List.lookup "Dependents" subscores = some s7 →
      compute_risk_capacity subscores =
        Except.ok (max 0 (min 100 (round1 (weighted_total WEIGHTS subscores / 100)))))
    ∧ ∀ rrr real_req_pct shortfall_pct draw_ratio_in : ℚ,
        (compute_risk_requirement rrr real_req_pct shortfall_pct draw_ratio_in).1 =
          max 0 (min 100 (round1 (weighted_total REQ_WEIGHTS_inline
            (compute_risk_requirement rrr real_req_pct shortfall_pct draw_ratio_in).2 / 100))) := by
  constructor
  · intro subs s1 s2 s3 s4 s5 s6 s7 h1 h2 h3 h4 h5 h6 h7
    have hwt : weighted_total WEIGHTS subs =
        25 * s1 + 20 * s2 + 15 * s3 + 12 * s4 + 12 * s5 + 8 * s6 + 8 * s7 := by
      simp only [weighted_total, WEIGHTS, List.map_cons, List.map_nil, List.sum_cons,
        List.sum_nil, h1, h2, h3, h4, h5, h6, h7, Option.getD_some]
      ring
    rw [hwt]
    simp only [compute_risk_capacity, h1, h2, h3, h4, h5, h6, h7]
    rw [round1_clamp_comm]
  · intro r a s d
    rw [req_score_form, req_subs_form, weighted_total_req, round1_clamp_comm]

/-- C4 (witness): the contract at a concrete seven-factor dict and at the
concrete requirement inputs (0, 0, 0, 0). -/
theorem aggregation_matches_round_clamp_contract_witness :
    compute_risk_capacity
      [("SLI", (50:ℚ)), ("Income", 50), ("Expenses", 50), ("Industry", 50),
       ("Age", 50), ("Growth", 50), ("Dependents", 50)] =
      Except.ok (max 0 (min 100 (round1 (weighted_total WEIGHTS
        [("SLI", (50:ℚ)), ("Income", 50), ("Expenses", 50), ("Industry", 50),
         ("Age", 50), ("Growth", 50), ("Dependents", 50)] / 100))))
    ∧ (compute_risk_requirement 0 0 0 0).1 =
        max 0 (min 100 (round1 (weighted_total REQ_WEIGHTS_inline
          (compute_risk_requirement 0 0 0 0).2 / 100))) :=
  ⟨aggregation_matches_round_clamp_contract.1 _ 50 50 50 50 50 50 50
      rfl rfl rfl rfl rfl rfl rfl,
   aggregation_matches_round_clamp_contract.2 0 0 0 0⟩

lemma map_sli_bounds (x : ℚ) : 0 ≤ map_sli x ∧ map_sli x ≤ 100 := by
  unfold map_sli sli_bracket_1_5 sli_bracket_5_20 sli_bracket_20_50 sli_bracket_over_50
  split_ifs with h1 h2 h3 h4 h5
  · norm_num
  · constructor <;> nlinarith
  · constructor <;> nlinarith
  · constructor <;> nlinarith
  · constructor
    · refine le_min ?_ (by norm_num)
      have hm : (50:ℚ) ≤ min x 200 := le_min (by linarith) (by norm_num)
      linarith
    · exact min_le_right _ _
  · norm_num

lemma map_income_bounds (r : ℚ) : 0 ≤ map_income_r r ∧ map_income_r r ≤ 100 := by
  have e1 : ∀ t : ℚ, income_bracket_1_15 t = 60 * t - 50 := by
    intro t
    unfold income_bracket_1_15
    ring
  have e2 : ∀ t : ℚ, income_bracket_15_25 t = 35 * t - 25/2 := by
    intro t
    unfold income_bracket_15_25
    ring
  have e3 : ∀ t : ℚ, (75:ℚ) + (min t 10 - 5/2) / (10 - 5/2) * (100 - 75)
      = 75 + (min t 10 - 5/2) * (10/3) := by
    intro t
    ring
  unfold map_income_r income_bracket_over_25
  split_ifs with h1 h2 h3
  · norm_num
  · rw [e1]
    constructor <;> linarith
  · rw [e2]
    constructor <;> linarith
  · rw [e3]
    have hm1 : (5:ℚ)/2 ≤ min r 10 := le_min (by linarith) (by norm_num)
    have hm2 : min r 10 ≤ 10 := min_le_right r 10
    constructor
    · refine le_min ?_ (by norm_num)
      linarith
    · exact min_le_right _ _

lemma map_em_bounds (m : ℚ) : 0 ≤ map_emergency_months m ∧ map_emergency_months m ≤ 100 := by
  unfold map_emergency_months em_bracket_1_3 em_bracket_3_6 em_bracket_over_6
  split_ifs with h1 h2 h3
  · norm_num
  · constructor <;> nlinarith
  · constructor <;> nlinarith
  · constructor
    · refine le_min ?_ (by norm_num)
      have hm : (6:ℚ) ≤ min m 24 := le_min (by linarith) (by norm_num)
      linarith
    · exact min_le_right _ _

lemma capacity_ok_bounds :
    ∀ (subscores : List (String × ℚ)) (s : ℚ),
      compute_risk_capacity subscores = Except.ok s → 0 ≤ s ∧ s ≤ 100 := by
  intro subs s h
  simp only [compute_risk_capacity] at h
  repeat' split at h
  all_goals first
    | exact Except.noConfusion h
    | (rw [Except.ok.injEq] at h
       subst h
       exact round1_clamp_bounds _)

/-- C5: every capacity mapping function lands in [0, 100] on every input of
its type, every successful capacity score lands in [0, 100], and every
requirement score lands in [0, 100]. -/
theorem subscores_and_scores_in_range :
    (∀ x : ℚ, 0 ≤ map_sli x ∧ map_sli x ≤ 100)
    ∧ (∀ r : ℚ, 0 ≤ map_income_r r ∧ map_income_r r ≤ 100)
    ∧ (∀ m : ℚ, 0 ≤ map_emergency_months m ∧ map_emergency_months m ≤ 100)
    ∧ (∀ s : String, 0 ≤ map_industry s ∧ map_industry s ≤ 100)
    ∧ (∀ a : ℤ, 0 ≤ map_age a ∧ map_age a ≤ 100)
    ∧ (∀ g : ℚ, 0 ≤ map_growth g ∧ map_growth g ≤ 100)
    ∧ (∀ d : ℤ, 0 ≤ map_dependents d ∧ map_dependents d ≤ 100)
    ∧ (∀ (subscores : List (String × ℚ)) (s : ℚ),
        compute_risk_capacity subscores = Except.ok s → 0 ≤ s ∧ s ≤ 100)
    ∧ (∀ rrr real_req_pct shortfall_pct draw_ratio_in : ℚ,
        0 ≤ (compute_risk_requirement rrr real_req_pct shortfall_pct draw_ratio_in).1
        ∧ (compute_risk_requirement rrr real_req_pct shortfall_pct draw_ratio_in).1 ≤ 100) := by
  refine ⟨map_sli_bounds, map_income_bounds, map_em_bounds, ?_, ?_, ?_, ?_,
    capacity_ok_bounds, ?_⟩
  · intro s
    unfold map_industry
    split_ifs <;> norm_num
  · intro a
    unfold map_age
    split_ifs <;> norm_num
  · intro g
    unfold map_growth
    split_ifs <;> norm_num
  · intro d
    unfold map_dependents
    split_ifs <;> norm_num
  · intro r a s d
    rw [req_score_form]
    exact round1_clamp_bounds _

/-- C5 (witness): the range invariant applied to the successful concrete
capacity evaluation (score 413/5). -/
theorem subscores_and_scores_in_range_witness :
    0 ≤ (413/5 : ℚ) ∧ (413/5 : ℚ) ≤ 100 :=
  subscores_and_scores_in_range.2.2.2.2.2.2.2.1 _ _ eval_capacity_scenario

lemma map_sli_mono {x y : ℚ} (hxy : x ≤ y) : map_sli x ≤ map_sli y := by
  unfold map_sli sli_bracket_1_5 sli_bracket_5_20 sli_bracket_20_50 sli_bracket_over_50
  split_ifs <;> try linarith
  all_goals first
    | exact min_le_min (by
        have hm : min x 200 ≤ min y 200 := min_le_min hxy le_rfl
        linarith) le_rfl
    | (refine le_min ?_ (by linarith)
       have hm : (50:ℚ) ≤ min y 200 := le_min (by linarith) (by norm_num)
       linarith)

lemma map_age_over_65 {a : ℤ} (h : 65 < a) : map_age a = 10 := by
  unfold map_age
  split_ifs <;> first | rfl | exact absurd h (by omega)

/-- C6: `map_sli` is monotone non-decreasing over all rational inputs,
`map_dependents` is monotone non-increasing over non-negative dependent
counts, and `map_age` restricted to ages above 65 is non-increasing
(constantly 10 there). -/
theorem capacity_mapping_monotonicity :
    (∀ x y : ℚ, x ≤ y → map_sli x ≤ map_sli y)
    ∧ (∀ d e : ℤ, 0 ≤ d → d ≤ e → map_dependents e ≤ map_dependents d)
    ∧ (∀ a b : ℤ, 65 < a → a ≤ b → map_age b ≤ map_age a) := by
  refine ⟨fun x y hxy => map_sli_mono hxy, ?_, ?_⟩
  · intro d e hd hde
    unfold map_dependents
    split_ifs <;> first | omega | norm_num
  · intro a b ha hab
    rw [map_age_over_65 ha, map_age_over_65 (lt_of_lt_of_le ha hab)]

/-- C6 (witness): monotonicity instances at concrete points. -/
theorem capacity_mapping_monotonicity_witness :
    map_sli 3 ≤ map_sli 7 ∧ map_dependents 3 ≤ map_dependents 1 ∧ map_age 80 ≤ map_age 70 :=
  ⟨capacity_mapping_monotonicity.1 3 7 (by norm_num),
   capacity_mapping_monotonicity.2.1 1 3 (by norm_num) (by norm_num),
   capacity_mapping_monotonicity.2.2 70 80 (by norm_num) (by norm_num)⟩

/-- C7: the alignment classifier agrees with the spec's three-band
partition everywhere: `diff = round(capacity − requirement, 1)`;
`diff ≥ 10` exceeds with surplus `diff`; `−10 ≤ diff < 10` roughly matches
with `diff` as-is; `diff < −10` below with deficit `−diff`; total, with no
error conditions. -/
theorem alignment_matches_spec_bands :
    ∀ capacity_score requirement_score : ℚ,
      classify_alignment capacity_score requirement_score =
        alignment_bands_spec capacity_score requirement_score := by
  intro c r
  simp only [classify_alignment, alignment_bands_spec]
  rcases le_or_lt 10 (round1 (c - r)) with h | h
  · rw [if_pos h, if_pos h]
  · rw [if_neg (not_le.mpr h), if_neg (not_le.mpr h)]
    rcases le_or_lt (-10 : ℚ) (round1 (c - r)) with h2 | h2
    · rw [if_pos ⟨h2, h⟩, if_neg (not_lt.mpr h2)]
    · rw [if_neg (fun hc => absurd hc.1 (not_le.mpr h2)), if_pos h2]

/-- C8: with zero annual withdrawals the SLI denominator is floored to 1, so
the SLI metric equals the investable assets exactly; the floored denominator
is at least 1 for every withdrawal value (so the division-by-zero branch is
unreachable); and the capacity pipeline still returns a (finite) score for
every input with zero withdrawals. -/
theorem zero_withdrawals_degenerate_safe :
    (∀ investable_assets : ℚ, sli_value investable_assets 0 = investable_assets)
    ∧ (∀ w : ℚ, 1 ≤ max 1 w)
    ∧ (∀ (age dependents : ℤ) (annual_income annual_fixed annual_variable : ℚ)
        (industry : String) (expected_growth investable_assets : ℚ),
        ∃ s : ℚ, compute_risk_capacity
          (capacity_subscores age dependents annual_income annual_fixed annual_variable
            industry expected_growth investable_assets 0) = Except.ok s) := by
  refine ⟨?_, fun w => le_max_left 1 w, ?_⟩
  · intro a
    unfold sli_value
    rw [show max (1:ℚ) 0 = 1 from max_eq_left (by norm_num)]
    exact div_one a
  · intro age dependents annual_income annual_fixed annual_variable industry g assets
    exact ⟨_, rfl⟩

/-- C9: the requirement score always lies in [10, 90] (in particular it can
never be 0 or 100): each inline step table of `compute_risk_requirement`
only takes values between 10 and 90 and its inline weights (35/25/25/15)
sum to 100; by contrast the unconsulted fine-grained tables reach outside
that interval (`map_rrr 0 = 0`, `map_drawimpact 2 = 100`), so they cannot
be in `compute_risk_requirement`'s data path. -/
theorem requirement_score_between_10_and_90 :
    (∀ rrr real_req_pct shortfall_pct draw_ratio_in : ℚ,
      10 ≤ (compute_risk_requirement rrr real_req_pct shortfall_pct draw_ratio_in).1
      ∧ (compute_risk_requirement rrr real_req_pct shortfall_pct draw_ratio_in).1 ≤ 90)
    ∧ map_rrr 0 = 0 ∧ map_drawimpact 2 = 100 := by
  refine ⟨?_, by norm_num [map_rrr], by norm_num [map_drawimpact]⟩
  intro r a s d
  rw [req_score_form]
  obtain ⟨h1a, h1b⟩ := req_rrr_step_bounds (r * 100)
  obtain ⟨h2a, h2b⟩ := req_realreq_step_bounds a
  obtain ⟨h3a, h3b⟩ := req_shortfall_step_bounds s
  obtain ⟨h4a, h4b⟩ := req_draw_step_bounds d
  set T := (35 * req_rrr_step (r * 100) + 25 * req_realreq_step a
    + 25 * req_shortfall_step s + 15 * req_draw_step d) / 100 with hT
  have hT1 : (10:ℚ) ≤ T := by
    rw [hT]
    linarith
  have hT2 : T ≤ (90:ℚ) := by
    rw [hT]
    linarith
  rw [min_eq_right (by linarith : T ≤ (100:ℚ)), max_eq_right (by linarith : (0:ℚ) ≤ T)]
  constructor
  · simpa using le_round1 (n := 10) (by exact_mod_cast hT1)
  · simpa using round1_le (n := 90) (by exact_mod_cast hT2)

/-- C10: the capacity aggregation reads only the seven factor keys named by
the weight table: any two sub-score dicts that agree on "SLI", "Income",
"Expenses", "Industry", "Age", "Growth" and "Dependents" yield identical
results, so extra entries are ignored and cannot influence the score. -/
theorem capacity_depends_only_on_factor_keys :
    ∀ d1 d2 : List (String × ℚ),
      List.lookup "SLI" d1 = List.lookup "SLI" d2 →
      List.lookup "Income" d1 = List.lookup "Income" d2 →
      List.lookup "Expenses" d1 = List.lookup "Expenses" d2 →
      List.lookup "Industry" d1 = List.lookup "Industry" d2 →
      List.lookup "Age" d1 = List.lookup "Age" d2 →
      List.lookup "Growth" d1 = List.lookup "Growth" d2 →
      List.lookup "Dependents" d1 = List.lookup "Dependents" d2 →
      compute_risk_capacity d1 = compute_risk_capacity d2 := by
  intro d1 d2 h1 h2 h3 h4 h5 h6 h7
  unfold compute_risk_capacity
  rw [h1, h2, h3, h4, h5, h6, h7]

/-- C10 (witness): appending an extra entry ("Extra", 999) to a seven-factor
dict leaves the capacity result unchanged. -/
theorem capacity_depends_only_on_factor_keys_witness :
    compute_risk_capacity
      [("SLI", (95:ℚ)), ("Income", 60), ("Expenses", 70), ("Industry", 90),
       ("Age", 75), ("Growth", 30), ("Dependents", 50)] =
    compute_risk_capacity
      [("SLI", (95:ℚ)), ("Income", 60), ("Expenses", 70), ("Industry", 90),
       ("Age", 75), ("Growth", 30), ("Dependents", 50), ("Extra", 999)] :=
  capacity_depends_only_on_factor_keys _ _ rfl rfl rfl rfl rfl rfl rfl
